import Mathlib

/-!
# Verification of the reading-journal application (`src/app.py`)

Shallow embedding of the journal data model, its persistence layer, the
journal operations wired to the UI buttons, and the two remote-lookup
handlers (dictionary definition, translation).

Conventions of the embedding:
* The persisted document (`journal_data.json`) is modelled at the level of
  parsed JSON values (`Json` below); Python's `json.dump`/`json.load` pair
  is an external standard-library collaborator assumed faithful, so
  `save_data` produces the `Json` document written to disk and `load_data`
  consumes the `Json` document read from disk.
* Python dicts preserve insertion order and have unique keys; we model the
  `books` dict (and JSON objects generally) as ordered association lists.
* Machine integers in the document are unbounded Python ints, modelled as `Int`.
-/

namespace ReadingJournal

/-- A journal note: `{"text": ..., "ts": ...}` appended by the
"Add Note to Journal" handler (app.py line 132). -/
structure Note where
  text : String
  ts : String
deriving DecidableEq, Repr

/-- A book record as created by the "Add Book" handler (app.py lines 72-77):
author, current page, total pages and an ordered list of notes. -/
structure Book where
  author : String
  current_page : Int
  total_pages : Int
  notes : List Note
deriving DecidableEq, Repr

/-- The journal document: `{"books": {...}}` (app.py line 25), the `books`
dict modelled as an insertion-ordered association list from title to book. -/
structure Journal where
  books : List (String × Book)
deriving DecidableEq, Repr

/-- `title in journal['books']` (Python key membership, app.py line 70). -/
def Journal.hasBook (j : Journal) (title : String) : Bool :=
  j.books.any (fun p => p.1 == title)

/-- `journal['books'][title]` as a partial lookup (first matching key). -/
def Journal.find (j : Journal) (title : String) : Option Book :=
  (j.books.find? (fun p => p.1 == title)).map Prod.snd

/-- In-place mutation of the book stored under `title`
(`journal['books'][title]` field assignments / `.append`): the entry with
that key is rewritten by `f`, every other entry is untouched. -/
def Journal.updateBook (j : Journal) (title : String) (f : Book → Book) : Journal :=
  { books := j.books.map (fun p => if p.1 == title then (p.1, f p.2) else p) }

/-! ## JSON documents

The contents of `journal_data.json` after parsing: strings, (integer)
numbers, arrays, objects. This is the subset of JSON the application ever
writes. -/

/-- A parsed JSON value, objects as insertion-ordered association lists. -/
inductive Json where
  | str : String → Json
  | int : Int → Json
  | arr : List Json → Json
  | obj : List (String × Json) → Json
deriving Repr

/-- Encoding of a note into the persisted document (app.py line 132). -/
def noteToJson (n : Note) : Json :=
  .obj [("text", .str n.text), ("ts", .str n.ts)]

/-- Encoding of a book into the persisted document (app.py lines 72-77). -/
def bookToJson (b : Book) : Json :=
  .obj [("author", .str b.author),
        ("current_page", .int b.current_page),
        ("total_pages", .int b.total_pages),
        ("notes", .arr (b.notes.map noteToJson))]

/-- Encoding of the whole journal into the persisted document. -/
def journalToJson (j : Journal) : Json :=
  .obj [("books", .obj (j.books.map (fun p => (p.1, bookToJson p.2))))]

/-- Reading a note record back out of the parsed document, exactly the
shape the application wrote; any other shape is a schema mismatch. -/
def noteFromJson : Json → Option Note
  | .obj [("text", .str t), ("ts", .str s)] => some { text := t, ts := s }
  | _ => none

/-- Reading a list of note records back out of the parsed document. -/
def notesFromJson : List Json → Option (List Note)
  | [] => some []
  | nj :: rest => do
      let n ← noteFromJson nj
      let ns ← notesFromJson rest
      pure (n :: ns)

/-- Reading a book record back out of the parsed document. -/
def bookFromJson : Json → Option Book
  | .obj [("author", .str a), ("current_page", .int cp),
          ("total_pages", .int tp), ("notes", .arr ns)] =>
      (notesFromJson ns).map fun notes =>
        { author := a, current_page := cp, total_pages := tp, notes := notes }
  | _ => none

/-- Reading the `books` object back as an association list of books. -/
def booksFromJson : List (String × Json) → Option (List (String × Book))
  | [] => some []
  | (t, bj) :: rest => do
      let b ← bookFromJson bj
      let bs ← booksFromJson rest
      pure ((t, b) :: bs)

/-- Reading a whole journal back out of the parsed document. -/
def journalFromJson : Json → Option Journal
  | .obj [("books", .obj bs)] => (booksFromJson bs).map Journal.mk
  | _ => none

/-! ## Persistence store (`load_data` / `save_data`, app.py lines 19-30) -/

/-- `save_data(data)` (app.py lines 27-30): serializes the entire journal
and rewrites the data file; the value returned is the document now on disk. -/
def save_data (data : Journal) : Json :=
  journalToJson data

/-- `load_data()` (app.py lines 19-25): `none` for the file argument means
`journal_data.json` does not exist, in which case the default structure
`{"books": {}}` is returned; otherwise the parsed file contents are
interpreted as a journal (`none` result = corrupt/mismatched document). -/
def load_data (file : Option Json) : Option Journal :=
  match file with
  | none => some { books := [] }
  | some doc => journalFromJson doc

/-! ## Application state and the journal operations

Session state (app.py lines 32-45): the in-memory journal, the currently
selected book title, and — for the persistence claims — the current
contents of `journal_data.json` (`none` = file absent). -/

/-- The mutable session: `st.session_state.journal`,
`st.session_state.current_book_title`, and the data file on disk. -/
structure AppState where
  journal : Journal
  current_book_title : Option String
  file : Option Json
deriving Repr

/-- `datetime.now()` as far as the format string `"%B %d, %Y at %I:%M %p"`
consumes it: full month name, day of month, year, 12-hour clock hour,
minute, and AM/PM marker. -/
structure Now where
  monthName : String
  day : Nat
  year : Nat
  hour12 : Nat
  minute : Nat
  ampm : String
deriving Repr

/-- Zero-padding to two digits, as `%d`, `%I`, `%M` render. -/
def pad2 (n : Nat) : String :=
  if n < 10 then "0" ++ toString n else toString n

/-- `datetime.now().strftime("%B %d, %Y at %I:%M %p")` (app.py line 131),
e.g. "March 04, 2025 at 03:15 PM". -/
def strftimeLong (t : Now) : String :=
  t.monthName ++ " " ++ pad2 t.day ++ ", " ++ toString t.year ++ " at "
    ++ pad2 t.hour12 ++ ":" ++ pad2 t.minute ++ " " ++ t.ampm

/-- Outcome surfaced by the "Add Book" button handler. -/
inductive AddBookOutcome where
  /-- Book inserted, journal saved, selection switched (lines 72-80). -/
  | added
  /-- `st.sidebar.warning("This book already exists in your journal.")` (line 82). -/
  | duplicateWarning
  /-- `st.sidebar.error("Please provide both a title and an author.")` (line 84). -/
  | missingFieldsError
deriving DecidableEq, Repr

/-- The "Add Book" button handler (app.py lines 68-84). Python truthiness of
the two text inputs is non-emptiness; a new dict key is appended in
insertion order; on success the journal is saved and the new book selected. -/
def add_book (s : AppState) (title author : String) : AppState × AddBookOutcome :=
  if title ≠ "" ∧ author ≠ "" then
    if ¬ s.journal.hasBook title then
      let b : Book := { author := author, current_page := 0, total_pages := 100, notes := [] }
      let j' : Journal := { books := s.journal.books ++ [(title, b)] }
      ({ journal := j', current_book_title := some title, file := some (save_data j') },
       .added)
    else (s, .duplicateWarning)
  else (s, .missingFieldsError)

/-- `update_book_details` (app.py lines 43-45): the `on_change` callback of
the progress widgets; saves the session's journal as it stands at the
moment the callback runs. -/
def update_book_details (s : AppState) : AppState :=
  { s with file := some (save_data s.journal) }

/-- The "Reading Progress" number inputs (app.py lines 94-105). The widgets
enforce `min_value=0` on the current page and `min_value=1` on the total
pages, so values below those bounds never reach the assignment. On an edit
the framework first runs the `on_change` callback `update_book_details` —
at that point `st.session_state.journal` still holds the pre-edit page
values, so the pre-edit journal is what gets written to disk — and only
then reruns the script body, whose assignments overwrite both page fields
of the selected book in place; no further save follows. -/
def set_progress (s : AppState) (title : String) (cp tp : Int) : AppState :=
  if 0 ≤ cp ∧ 1 ≤ tp then
    let s' := update_book_details s
    let j' := s'.journal.updateBook title
      (fun b => { b with current_page := cp, total_pages := tp })
    { s' with journal := j' }
  else s

/-- Outcome surfaced by the "Add Note to Journal" button handler. -/
inductive AddNoteOutcome where
  /-- `st.success("Your note has been successfully saved!")` (line 134). -/
  | saved
  /-- `st.warning("Please write a note before saving.")` (line 136). -/
  | emptyWarning
deriving DecidableEq, Repr

/-- The "Add Note to Journal" button handler (app.py lines 129-136): empty
note text (Python falsy) is rejected with a warning; otherwise a note
carrying the formatted wall-clock timestamp is appended to the selected
book's notes and the journal is saved. -/
def add_note (s : AppState) (title : String) (text : String) (now : Now) :
    AppState × AddNoteOutcome :=
  if text ≠ "" then
    let ts := strftimeLong now
    let j' := s.journal.updateBook title
      (fun b => { b with notes := b.notes ++ [{ text := text, ts := ts }] })
    ({ s with journal := j', file := some (save_data j') }, .saved)
  else (s, .emptyWarning)

/-- The session at first run with no pre-existing data file: `load_data()`
returns `{"books": {}}` (line 25) and no book is selected (line 41). -/
def initialState : AppState :=
  { journal := { books := [] }, current_book_title := none, file := none }

/-- States (and hence journals) built purely from the journal operations,
starting from the empty journal. -/
inductive Reachable : AppState → Prop where
  | init : Reachable initialState
  | add_book (s : AppState) (title author : String) :
      Reachable s → Reachable (add_book s title author).1
  | set_progress (s : AppState) (title : String) (cp tp : Int) :
      Reachable s → Reachable (set_progress s title cp tp)
  | add_note (s : AppState) (title text : String) (now : Now) :
      Reachable s → Reachable (add_note s title text now).1

/-- The page-counter invariant of the data model: every stored book has a
non-negative current page and a positive page total. -/
def pagesInv (j : Journal) : Prop :=
  ∀ p ∈ j.books, 0 ≤ p.2.current_page ∧ 1 ≤ p.2.total_pages

/-- A concrete one-book session, used as an evaluation point. -/
def duneState : AppState := (add_book initialState "Dune" "Herbert").1

/-- A concrete wall-clock instant, used as an evaluation point. -/
def marchNow : Now :=
  { monthName := "March", day := 4, year := 2025, hour12 := 3, minute := 15, ampm := "PM" }

/-! ## Progress display (app.py lines 107-110)

The sidebar progress bar divides `current_page / total_pages`, but only
inside an `if current_book['total_pages'] > 0:` guard; when the guard
fails the whole block (division included) is skipped.  Python's float
division is modelled as exact rational division — the claim concerns the
guard, not rounding. -/

/-- `progress_percentage` as displayed: `some` of the fraction when the
guard `total_pages > 0` passes, `none` when the block is skipped. -/
def progressPercentage (b : Book) : Option ℚ :=
  if b.total_pages > 0 then
    some ((b.current_page : ℚ) / (b.total_pages : ℚ))
  else none

/-! ## Dictionary lookup (app.py lines 155-169)

The handler issues `requests.get` on the dictionary endpoint.  We model the
outcome of that external call as an input: either an HTTP response with a
status code and parsed JSON body, or a raised exception (network failure —
note the source wraps the call in no `try`). The rendered output is kept
structural (which lines are written, with which JSON values) rather than
flattening to formatted strings. -/

/-- `d.get(k, default)` on a Python dict. -/
def jgetD (fields : List (String × Json)) (k : String) (dflt : Json) : Json :=
  match fields.find? (fun p => p.1 == k) with
  | some p => p.2
  | none => dflt

/-- `k in d` / `d.get(k)` on a Python dict. -/
def jget (fields : List (String × Json)) (k : String) : Option Json :=
  (fields.find? (fun p => p.1 == k)).map Prod.snd

/-- One `st.write`/`st.markdown` call emitted by the definition handler,
carrying the JSON value interpolated into the f-string. -/
inductive Line where
  /-- `st.write(f"**Word:** {data.get('word', 'N/A')}")` (line 161). -/
  | wordLine (v : Json)
  /-- `st.write(f"**Phonetic:** {data.get('phonetic', 'N/A')}")` (line 162). -/
  | phoneticLine (v : Json)
  /-- `st.markdown("---")` (line 164). -/
  | separator
  /-- `st.write(f"**Part of Speech:** {...}")` (line 165). -/
  | partOfSpeechLine (v : Json)
  /-- `st.write(f"{i+1}. {definition_info.get('definition', ...)}")` (line 167). -/
  | definitionLine (idx : Nat) (v : Json)
deriving Repr

/-- Whether a rendered line is the phonetic line. -/
def Line.isPhonetic : Line → Bool
  | .phoneticLine _ => true
  | _ => false

/-- The inner loop of lines 166-167: `enumerate` starts `i` at the given
index, each definition entry renders `i+1` and the `definition` field with
its missing-field default. A non-dict entry makes Python's `.get` raise
(`none` = the script dies with an uncaught exception). -/
def renderDefs (i : Nat) : List Json → Option (List Line)
  | [] => some []
  | d :: rest =>
      match d with
      | .obj fields =>
          (renderDefs (i + 1) rest).map fun ls =>
            Line.definitionLine (i + 1)
              (jgetD fields "definition" (.str "No definition available.")) :: ls
      | _ => none

/-- One iteration of the `for meaning in data.get('meanings', [])` loop
(lines 163-167): a separator, the part-of-speech line with its `'N/A'`
default, then the numbered definitions. A meaning that is not a dict, or a
`definitions` value that is not a list, makes the script raise. -/
def renderMeaning (m : Json) : Option (List Line) :=
  match m with
  | .obj fields =>
      match jgetD fields "definitions" (.arr []) with
      | .arr ds =>
          (renderDefs 0 ds).map fun dls =>
            Line.separator ::
              Line.partOfSpeechLine (jgetD fields "partOfSpeech" (.str "N/A")) :: dls
      | _ => none
  | _ => none

/-- All iterations of the meanings loop, concatenated in order. -/
def renderMeanings : List Json → Option (List Line)
  | [] => some []
  | m :: rest => do
      let ls ← renderMeaning m
      let more ← renderMeanings rest
      pure (ls ++ more)

/-- `data.get('meanings', [])` (line 163). -/
def meaningsOf (fields : List (String × Json)) : Json :=
  jgetD fields "meanings" (.arr [])

/-- The 200-status rendering block (app.py lines 160-167) applied to
`data = response.json()[0]`: the word line (default `'N/A'`), the phonetic
line only when `'phonetic' in data`, then the meanings. `data` not being a
dict, or `meanings` not being a list, makes the script raise. -/
def renderEntry (data : Json) : Option (List Line) :=
  match data with
  | .obj fields =>
      match meaningsOf fields with
      | .arr ms =>
          (renderMeanings ms).map fun mls =>
            Line.wordLine (jgetD fields "word" (.str "N/A")) ::
              ((if (jget fields "phonetic").isSome then
                  [Line.phoneticLine (jgetD fields "phonetic" (.str "N/A"))]
                else []) ++ mls)
      | _ => none
  | _ => none

/-- A dictionary entry with every optional field absent: no word, no
phonetic, a meaning with no part of speech, a definition entry with no
definition string. -/
def bareEntryFields : List (String × Json) :=
  [("meanings", .arr [.obj [("definitions", .arr [.obj []])]])]

/-- The lines the 200-path renders for `Json.obj bareEntryFields`. -/
def bareLines : List Line :=
  [Line.wordLine (.str "N/A"), Line.separator,
   Line.partOfSpeechLine (.str "N/A"),
   Line.definitionLine 1 (.str "No definition available.")]

/-- Outcome of `requests.get(api_url)` (line 158), supplied as an input to
the handler: a completed HTTP response with status code and parsed JSON
body, or a raised exception (connection failure, timeout, ...). -/
inductive HttpResult where
  | response (status : Nat) (body : Json)
  | raised
deriving Repr

/-- What the "Get Definition" handler leaves on the screen. -/
inductive DefineOutcome where
  /-- Definition lines were rendered (status 200 path). -/
  | rendered (lines : List Line)
  /-- `st.error("Word not found. Please check the spelling and try again.")` (line 169). -/
  | notFoundMessage
  /-- The script raised with no handler in the source: nothing rendered,
  the framework shows a traceback. -/
  | uncaughtException
deriving Repr

/-- The "Get Definition" button handler (app.py lines 155-169). There is no
`try`/`except`: a raised request propagates; on any completed non-200
response the generic not-found error is shown; on 200 the first entry of
the JSON array body is rendered (`response.json()[0]` raises on an empty
or non-array body). -/
def getDefinition (r : HttpResult) : DefineOutcome :=
  match r with
  | .raised => .uncaughtException
  | .response status body =>
      if status = 200 then
        match body with
        | .arr (x :: _) =>
            match renderEntry x with
            | some ls => .rendered ls
            | none => .uncaughtException
        | _ => .uncaughtException
      else .notFoundMessage

/-! ## Translation (app.py lines 176-184) -/

/-- Outcome of `Translator().translate(word, dest=target_code)`, supplied
as an input: the returned translation's `.text`, or any raised exception. -/
inductive RemoteTranslation where
  | ok (text : String)
  | raised
deriving DecidableEq, Repr

/-- What the "Translate" button handler leaves on the screen. -/
inductive TranslateOutcome where
  /-- `st.success(f"**Translation:** {translation.text}")` (line 182). -/
  | success (text : String)
  /-- `st.error("Translation failed. Please try again.")` (line 184). -/
  | translationError
deriving DecidableEq, Repr

/-- The "Translate" button handler body (app.py lines 178-184): the remote
call is wrapped in `try`/`except Exception`, so every raised exception —
whatever its cause — collapses to the one generic error message, and a
successful call shows the translated text. -/
def translate (word dest : String)
    (remote : String → String → RemoteTranslation) : TranslateOutcome :=
  match remote word dest with
  | .ok t => .success t
  | .raised => .translationError

/-- A remote translation call that raises on every input. -/
def remoteAlwaysRaises : String → String → RemoteTranslation :=
  fun _ _ => .raised

/-- A remote translation call that returns the same text on every input. -/
def remoteConst (t : String) : String → String → RemoteTranslation :=
  fun _ _ => .ok t

/-! # Theorems -/

/-! ## Round-trip of the JSON encoders and decoders -/

theorem noteFromJson_noteToJson (n : Note) : noteFromJson (noteToJson n) = some n := by
  cases n; rfl

theorem notesFromJson_map (ns : List Note) :
    notesFromJson (ns.map noteToJson) = some ns := by
  induction ns with
  | nil => rfl
  | cons n rest ih =>
      simp [notesFromJson, noteFromJson_noteToJson, ih]

theorem bookFromJson_bookToJson (b : Book) : bookFromJson (bookToJson b) = some b := by
  cases b
  simp [bookToJson, bookFromJson, notesFromJson_map]

theorem booksFromJson_map (bs : List (String × Book)) :
    booksFromJson (bs.map (fun p => (p.1, bookToJson p.2))) = some bs := by
  induction bs with
  | nil => rfl
  | cons p rest ih =>
      simp [booksFromJson, bookFromJson_bookToJson, ih]

theorem journalFromJson_journalToJson (j : Journal) :
    journalFromJson (journalToJson j) = some j := by
  cases j
  simp [journalToJson, journalFromJson, booksFromJson_map]

/-! ## Lookup / update lemmas on the books mapping -/

theorem updateBook_find_self (j : Journal) (title : String) (f : Book → Book) :
    (j.updateBook title f).find title = (j.find title).map f := by
  obtain ⟨books⟩ := j
  induction books with
  | nil => rfl
  | cons p ps ih =>
      cases hp : p.1 == title with
      | true => simp [Journal.updateBook, Journal.find, List.find?, hp]
      | false =>
          simpa [Journal.updateBook, Journal.find, List.find?, hp] using ih

theorem updateBook_find_ne (j : Journal) (title t' : String) (f : Book → Book)
    (h : t' ≠ title) :
    (j.updateBook title f).find t' = j.find t' := by
  obtain ⟨books⟩ := j
  induction books with
  | nil => rfl
  | cons p ps ih =>
      cases hp : p.1 == title with
      | true =>
          have hpt : p.1 = title := by simpa using hp
          have hne : (p.1 == t') = false := by
            simp [hpt]
            exact fun hc => h hc.symm
          simp [Journal.updateBook, Journal.find, List.find?, hp, hne] at ih ⊢
          simpa [Journal.find] using ih
      | false =>
          cases hq : p.1 == t' with
          | true => simp [Journal.updateBook, Journal.find, List.find?, hp, hq]
          | false =>
              simp [Journal.updateBook, Journal.find, List.find?, hp, hq] at ih ⊢
              simpa [Journal.find] using ih

/-- The formatted timestamp is never the empty string: the format string
contributes literal separators of total length 7. -/
theorem strftimeLong_ne_empty (t : Now) : strftimeLong t ≠ "" := by
  intro h
  have hlen := congrArg String.length h
  simp [strftimeLong, String.length_append] at hlen
  exact absurd hlen.1.1.1.1.1.1.1.1.1.2 (by decide)

/-! ## C1: save/load round-trip -/

/-- C1: For every Journal value built purely from the journal operations
(`add_book`, `set_progress`, `add_note`), calling `save_data` on it and then
`load_data` on the resulting file returns a Journal deep-equal to the
original. -/
theorem c1_save_load_roundtrip (s : AppState) (_h : Reachable s) :
    load_data (some (save_data s.journal)) = some s.journal := by
  simp [load_data, save_data, journalFromJson_journalToJson]

/-- Witness for C1 at a concrete reachable state: one `add_book`, one
`add_note`, one `set_progress` applied from the initial empty session. -/
theorem c1_save_load_roundtrip_witness :
    load_data (some (save_data
      (set_progress
        (add_note duneState "Dune" "Great worldbuilding"
          { monthName := "March", day := 4, year := 2025,
            hour12 := 3, minute := 15, ampm := "PM" }).1
        "Dune" 55 412).journal)) =
    some (set_progress
      (add_note duneState "Dune" "Great worldbuilding"
        { monthName := "March", day := 4, year := 2025,
          hour12 := 3, minute := 15, ampm := "PM" }).1
      "Dune" 55 412).journal :=
  c1_save_load_roundtrip _
    (Reachable.set_progress _ "Dune" 55 412
      (Reachable.add_note _ "Dune" "Great worldbuilding" _
        (Reachable.add_book initialState "Dune" "Herbert" Reachable.init)))

/-! ## C2: duplicate titles are rejected without mutation -/

/-- C2: For every session and every title already present in
`journal['books']`, pressing "Add Book" with that title mutates nothing —
journal, file and selection are all left exactly as they were — and the
user is shown a message (the duplicate warning, or, when the author field
is empty, the missing-fields error) rather than a successful add. -/
theorem c2_add_book_duplicate_noop (s : AppState) (title author : String)
    (h : s.journal.hasBook title = true) :
    (add_book s title author).1 = s ∧
      ((add_book s title author).2 = .duplicateWarning ∨
       (add_book s title author).2 = .missingFieldsError) := by
  by_cases hta : title ≠ "" ∧ author ≠ ""
  · simp [add_book, hta, h]
  · simp [add_book, hta]

/-- Witness for C2: adding "Dune" again to the one-book session. -/
theorem c2_add_book_duplicate_noop_witness :
    duneState.journal.hasBook "Dune" = true ∧
    ((add_book duneState "Dune" "F. Herbert").1 = duneState ∧
      ((add_book duneState "Dune" "F. Herbert").2 = .duplicateWarning ∨
       (add_book duneState "Dune" "F. Herbert").2 = .missingFieldsError)) :=
  ⟨by decide, c2_add_book_duplicate_noop duneState "Dune" "F. Herbert" (by decide)⟩

/-! ## C3: adding a fresh, fully specified book -/

/-- C3: For every `(title, author)` pair with non-empty title and author
and title not already present, "Add Book" appends exactly one new book with
`current_page = 0`, `total_pages = 100`, `notes = []` — every existing
entry of the books mapping is untouched — reports success, and persists
the updated journal to the data file. -/
theorem c3_add_book_new (s : AppState) (title author : String)
    (ht : title ≠ "") (ha : author ≠ "") (hnew : s.journal.hasBook title = false) :
    (add_book s title author).2 = .added ∧
    (add_book s title author).1.journal.books =
      s.journal.books ++
        [(title, { author := author, current_page := 0, total_pages := 100, notes := [] })] ∧
    (add_book s title author).1.file =
      some (save_data (add_book s title author).1.journal) := by
  simp [add_book, ht, ha, hnew]

/-- Witness for C3: adding "Dune" by "Herbert" to the empty session. -/
theorem c3_add_book_new_witness :
    ("Dune" ≠ "" ∧ "Herbert" ≠ "" ∧ initialState.journal.hasBook "Dune" = false) ∧
    ((add_book initialState "Dune" "Herbert").2 = .added ∧
     (add_book initialState "Dune" "Herbert").1.journal.books =
       initialState.journal.books ++
         [("Dune", { author := "Herbert", current_page := 0, total_pages := 100, notes := [] })] ∧
     (add_book initialState "Dune" "Herbert").1.file =
       some (save_data (add_book initialState "Dune" "Herbert").1.journal)) :=
  ⟨by decide,
   c3_add_book_new initialState "Dune" "Herbert" (by decide) (by decide) (by decide)⟩

/-! ## C4: adding a note -/

/-- C4: For every selected book (a book actually stored under the selected
title), "Add Note to Journal" with empty text changes nothing and warns the
user; with non-empty text it appends exactly one note whose `text` equals
the input and whose timestamp (the formatted wall-clock time) is a
non-empty string, leaves every previously stored note and every other book
unchanged, reports success, and persists the journal. -/
theorem c4_add_note_spec (s : AppState) (title text : String) (now : Now) (b : Book)
    (hb : s.journal.find title = some b) :
    (text = "" →
       (add_note s title text now).1 = s ∧
       (add_note s title text now).2 = .emptyWarning) ∧
    (text ≠ "" →
       (add_note s title text now).1.journal.find title =
         some { b with notes := b.notes ++ [{ text := text, ts := strftimeLong now }] } ∧
       strftimeLong now ≠ "" ∧
       (∀ t', t' ≠ title →
         (add_note s title text now).1.journal.find t' = s.journal.find t') ∧
       (add_note s title text now).1.file =
         some (save_data (add_note s title text now).1.journal) ∧
       (add_note s title text now).2 = .saved) := by
  constructor
  · intro h
    simp [add_note, h]
  · intro h
    refine ⟨?_, strftimeLong_ne_empty now, ?_, ?_, ?_⟩
    · simp [add_note, h, updateBook_find_self, hb]
    · intro t' ht'
      simp [add_note, h, updateBook_find_ne _ _ _ _ ht']
    · simp [add_note, h]
    · simp [add_note, h]

/-- Witness for C4: a note lands in the one-book session; an empty note is
a no-op there. -/
theorem c4_add_note_spec_witness :
    (add_note duneState "Dune" "Great worldbuilding" marchNow).1.journal.find "Dune" =
      some { author := "Herbert", current_page := 0, total_pages := 100,
             notes := [{ text := "Great worldbuilding", ts := strftimeLong marchNow }] } ∧
    (add_note duneState "Dune" "" marchNow).1 = duneState :=
  ⟨((c4_add_note_spec duneState "Dune" "Great worldbuilding" marchNow
        { author := "Herbert", current_page := 0, total_pages := 100, notes := [] }
        (by decide)).2 (by decide)).1,
   ((c4_add_note_spec duneState "Dune" "" marchNow
        { author := "Herbert", current_page := 0, total_pages := 100, notes := [] }
        (by decide)).1 rfl).1⟩

/-! ## C5: the progress save runs on the pre-edit journal -/

/-- C5 (code bug, evaluated at the failing input): with "Dune" stored at
0/100 pages, editing the progress to 55/412 does overwrite both page
fields of the book in memory — but the save triggered by the edit is the
`on_change` callback `update_book_details`, which runs before the body's
assignments, so the file written is the pre-edit journal (still 0/100) and
the persisted store does not equal the updated in-memory journal; the new
values reach disk only on some later save. -/
theorem c5_progress_save_lags :
    (set_progress duneState "Dune" 55 412).journal.find "Dune" =
      some { author := "Herbert", current_page := 55, total_pages := 412, notes := [] } ∧
    (set_progress duneState "Dune" 55 412).file = some (save_data duneState.journal) ∧
    (set_progress duneState "Dune" 55 412).file ≠
      some (save_data (set_progress duneState "Dune" 55 412).journal) := by
  have hfile : (set_progress duneState "Dune" 55 412).file
      = some (save_data duneState.journal) := rfl
  refine ⟨rfl, hfile, fun h => ?_⟩
  have h2 : save_data duneState.journal
      = save_data (set_progress duneState "Dune" 55 412).journal :=
    Option.some.inj (hfile.symm.trans h)
  have h3 := congrArg journalFromJson h2
  simp only [save_data, journalFromJson_journalToJson] at h3
  exact absurd (Option.some.inj h3) (by decide)

/-! ## C6: the page-counter invariant is preserved -/

/-- C6: Every journal operation — add_book, set_progress, add_note —
preserves the invariant that every stored book has `current_page ≥ 0` and
`total_pages ≥ 1`. -/
theorem c6_ops_preserve_pagesInv (s : AppState) (title author text : String)
    (cp tp : Int) (now : Now) (hinv : pagesInv s.journal) :
    pagesInv (add_book s title author).1.journal ∧
    pagesInv (set_progress s title cp tp).journal ∧
    pagesInv (add_note s title text now).1.journal := by
  refine ⟨?_, ?_, ?_⟩
  · intro p hp
    by_cases hta : title ≠ "" ∧ author ≠ ""
    · by_cases hnew : ¬ s.journal.hasBook title
      · simp [add_book, hta, hnew] at hp
        rcases hp with hp | rfl
        · exact hinv p hp
        · exact ⟨le_refl 0, by norm_num⟩
      · simp [add_book, hta, hnew] at hp
        exact hinv p hp
    · simp [add_book, hta] at hp
      exact hinv p hp
  · intro p hp
    by_cases hc : 0 ≤ cp ∧ 1 ≤ tp
    · simp [set_progress, update_book_details, hc, Journal.updateBook] at hp
      obtain ⟨t0, b0, hmem, rfl⟩ := hp
      by_cases hqt : t0 = title
      · simp [hqt]
        exact ⟨hc.1, hc.2⟩
      · simp [hqt]
        exact hinv (t0, b0) hmem
    · simp [set_progress, hc] at hp
      exact hinv p hp
  · intro p hp
    by_cases ht : text ≠ ""
    · simp [add_note, ht, Journal.updateBook] at hp
      obtain ⟨t0, b0, hmem, rfl⟩ := hp
      by_cases hqt : t0 = title
      · simp [hqt]
        exact hinv (t0, b0) hmem
      · simp [hqt]
        exact hinv (t0, b0) hmem
    · simp [add_note, ht] at hp
      exact hinv p hp

/-- Witness for C6: the invariant holds on the empty session and survives
each of the three operations applied there. -/
theorem c6_ops_preserve_pagesInv_witness :
    pagesInv (add_book initialState "Dune" "Herbert").1.journal ∧
    pagesInv (set_progress initialState "Dune" 55 412).journal ∧
    pagesInv (add_note initialState "Dune" "note" marchNow).1.journal :=
  c6_ops_preserve_pagesInv initialState "Dune" "Herbert" "note" 55 412 marchNow
    (by intro p hp; exact absurd hp (List.not_mem_nil p))

/-! ## C7: rendering of missing optional dictionary fields -/

theorem jgetD_of_none (fields : List (String × Json)) (k : String) (d : Json)
    (h : jget fields k = none) : jgetD fields k d = d := by
  unfold jget at h
  unfold jgetD
  cases hf : fields.find? (fun p => p.1 == k) with
  | none => rfl
  | some p => simp [hf] at h

theorem renderDefs_no_phonetic (ds : List Json) :
    ∀ (i : Nat) (ls : List Line), renderDefs i ds = some ls →
      ls.any Line.isPhonetic = false := by
  induction ds with
  | nil =>
      intro i ls h
      simp [renderDefs] at h
      subst h
      rfl
  | cons d rest ih =>
      intro i ls h
      cases d <;> simp [renderDefs] at h
      obtain ⟨a, ha, rfl⟩ := h
      simp only [List.any_cons]
      rw [ih _ _ ha]
      rfl

theorem renderMeaning_no_phonetic (m : Json) (lm : List Line)
    (h : renderMeaning m = some lm) : lm.any Line.isPhonetic = false := by
  cases m with
  | obj fields =>
      rcases hd : jgetD fields "definitions" (.arr []) with _ | _ | ds | _ <;>
        simp [renderMeaning, hd] at h
      obtain ⟨a, ha, rfl⟩ := h
      simp only [List.any_cons]
      rw [renderDefs_no_phonetic _ _ _ ha]
      rfl
  | str s => simp [renderMeaning] at h
  | int n => simp [renderMeaning] at h
  | arr xs => simp [renderMeaning] at h

theorem renderMeanings_no_phonetic (ms : List Json) :
    ∀ (ls : List Line), renderMeanings ms = some ls →
      ls.any Line.isPhonetic = false := by
  induction ms with
  | nil =>
      intro ls h
      simp [renderMeanings] at h
      subst h
      rfl
  | cons m rest ih =>
      intro ls h
      simp [renderMeanings, Option.bind_eq_some] at h
      obtain ⟨a, ha, b, hb, rfl⟩ := h
      simp only [List.any_append]
      rw [renderMeaning_no_phonetic m a ha, ih b hb]
      rfl

theorem renderMeanings_mem (ms : List Json) :
    ∀ (ls : List Line) (m : Json), renderMeanings ms = some ls → m ∈ ms →
      ∃ lm, renderMeaning m = some lm ∧ ∀ l ∈ lm, l ∈ ls := by
  induction ms with
  | nil => intro ls m _ hm; cases hm
  | cons m0 rest ih =>
      intro ls m h hm
      simp [renderMeanings, Option.bind_eq_some] at h
      obtain ⟨a, ha, b, hb, rfl⟩ := h
      rcases List.mem_cons.mp hm with rfl | hm'
      · exact ⟨a, ha, fun l hl => List.mem_append_left _ hl⟩
      · obtain ⟨lm, hlm, hsub⟩ := ih b m hb hm'
        exact ⟨lm, hlm, fun l hl => List.mem_append_right _ (hsub l hl)⟩

theorem renderMeaning_partOfSpeech_mem (mf : List (String × Json)) (lm : List Line)
    (h : renderMeaning (.obj mf) = some lm) :
    Line.partOfSpeechLine (jgetD mf "partOfSpeech" (.str "N/A")) ∈ lm := by
  rcases hd : jgetD mf "definitions" (.arr []) with _ | _ | ds | _ <;>
    simp [renderMeaning, hd] at h
  obtain ⟨a, ha, rfl⟩ := h
  simp

theorem renderDefs_mem (ds : List Json) :
    ∀ (i : Nat) (ls : List Line) (df : List (String × Json)),
      renderDefs i ds = some ls → Json.obj df ∈ ds →
      ∃ k, Line.definitionLine k
        (jgetD df "definition" (.str "No definition available.")) ∈ ls := by
  induction ds with
  | nil => intro _ _ _ _ hm; cases hm
  | cons d rest ih =>
      intro i ls df h hm
      cases d <;> simp [renderDefs] at h
      obtain ⟨a, ha, rfl⟩ := h
      rcases List.mem_cons.mp hm with heq | hm'
      · obtain rfl : df = _ := by injection heq
        exact ⟨i + 1, by simp⟩
      · obtain ⟨k, hk⟩ := ih (i + 1) a df ha hm'
        exact ⟨k, by simp [hk]⟩

theorem renderMeaning_definition_mem (mf : List (String × Json))
    (lm : List Line) (ds : List Json) (df : List (String × Json))
    (h : renderMeaning (.obj mf) = some lm)
    (hds : jgetD mf "definitions" (.arr []) = .arr ds)
    (hdf : Json.obj df ∈ ds) :
    ∃ k, Line.definitionLine k
      (jgetD df "definition" (.str "No definition available.")) ∈ lm := by
  simp [renderMeaning, hds] at h
  obtain ⟨a, ha, rfl⟩ := h
  obtain ⟨k, hk⟩ := renderDefs_mem ds 0 a df ha hdf
  exact ⟨k, by simp [hk]⟩

/-- C7 counterexample: for the entry `{"word": "serendipity"}` the
`phonetic` field is missing, yet the rendered output contains no phonetic
line at all — in particular no "N/A" placeholder for it — because the
placeholder expression sits behind an `if 'phonetic' in data:` guard
(app.py line 162). -/
theorem c7_counterexample :
    jget [("word", Json.str "serendipity")] "phonetic" = none ∧
    renderEntry (Json.obj [("word", Json.str "serendipity")]) =
      some [Line.wordLine (Json.str "serendipity")] ∧
    [Line.wordLine (Json.str "serendipity")].any Line.isPhonetic = false :=
  ⟨rfl, rfl, rfl⟩

/-- C7 amended: in a successfully rendered entry, a missing `word` renders
the `'N/A'` placeholder, a missing `partOfSpeech` renders `'N/A'`, and a
missing `definition` renders `'No definition available.'`; but a missing
`phonetic` does not render a placeholder — the phonetic line is omitted
from the output entirely. -/
theorem c7_missing_fields_rendering (fields : List (String × Json))
    (ls : List Line) (ms : List Json)
    (h : renderEntry (.obj fields) = some ls)
    (hms : meaningsOf fields = .arr ms) :
    (jget fields "word" = none → Line.wordLine (.str "N/A") ∈ ls) ∧
    (jget fields "phonetic" = none → ls.any Line.isPhonetic = false) ∧
    (∀ mf, Json.obj mf ∈ ms → jget mf "partOfSpeech" = none →
       Line.partOfSpeechLine (.str "N/A") ∈ ls) ∧
    (∀ mf ds df, Json.obj mf ∈ ms →
       jgetD mf "definitions" (.arr []) = .arr ds →
       Json.obj df ∈ ds → jget df "definition" = none →
       ∃ k, Line.definitionLine k (.str "No definition available.") ∈ ls) := by
  simp [renderEntry, hms] at h
  obtain ⟨mls, hmls, rfl⟩ := h
  refine ⟨?_, ?_, ?_, ?_⟩
  · intro hw
    simp [jgetD_of_none _ _ _ hw]
  · intro hp
    rw [hp]
    show (Line.wordLine _ :: (([] : List Line) ++ mls)).any Line.isPhonetic = false
    simp only [List.nil_append, List.any_cons]
    rw [renderMeanings_no_phonetic ms mls hmls]
    rfl
  · intro mf hmf hpos
    obtain ⟨lm, hlm, hsub⟩ := renderMeanings_mem ms mls (.obj mf) hmls hmf
    have := renderMeaning_partOfSpeech_mem mf lm hlm
    rw [jgetD_of_none _ _ _ hpos] at this
    have hin := hsub _ this
    simp [List.mem_append]
    exact hin
  · intro mf ds df hmf hds hdf hdef
    obtain ⟨lm, hlm, hsub⟩ := renderMeanings_mem ms mls (.obj mf) hmls hmf
    obtain ⟨k, hk⟩ := renderMeaning_definition_mem mf lm ds df hlm hds hdf
    rw [jgetD_of_none _ _ _ hdef] at hk
    have hin := hsub _ hk
    refine ⟨k, ?_⟩
    simp [List.mem_append]
    exact hin

/-- Witness for C7 (amended) at `bareEntryFields`: every defaulted
placeholder appears, and no phonetic line appears. -/
theorem c7_missing_fields_rendering_witness :
    Line.wordLine (Json.str "N/A") ∈ bareLines ∧
    bareLines.any Line.isPhonetic = false ∧
    Line.partOfSpeechLine (Json.str "N/A") ∈ bareLines ∧
    (∃ k, Line.definitionLine k (Json.str "No definition available.") ∈ bareLines) := by
  obtain ⟨hA, hB, hC, hD⟩ :=
    c7_missing_fields_rendering bareEntryFields bareLines
      [Json.obj [("definitions", Json.arr [Json.obj []])]] rfl rfl
  exact ⟨hA rfl, hB rfl,
    hC [("definitions", Json.arr [Json.obj []])] (by simp) rfl,
    hD [("definitions", Json.arr [Json.obj []])] [Json.obj []] [] (by simp) rfl (by simp) rfl⟩

/-! ## C8: dictionary failure handling -/

/-- C8 counterexample: when `requests.get` raises (network failure), the
handler does not produce the generic not-found message — there is no
`try`/`except` around the request, so the exception propagates uncaught. -/
theorem c8_counterexample :
    getDefinition HttpResult.raised = DefineOutcome.uncaughtException ∧
    getDefinition HttpResult.raised ≠ DefineOutcome.notFoundMessage :=
  ⟨rfl, fun h => DefineOutcome.noConfusion h⟩

/-- C8 amended: for every completed response with status ≠ 200 (404, 5xx,
...) the handler shows the single generic not-found message and renders no
definitions, with no distinction among statuses; but a request that raises
(network failure) propagates as an uncaught exception instead of the
not-found message. -/
theorem c8_non200_notFound (status : Nat) (body : Json) (h : status ≠ 200) :
    getDefinition (.response status body) = .notFoundMessage ∧
    getDefinition .raised = .uncaughtException := by
  constructor
  · simp [getDefinition, h]
  · rfl

/-- Witness for C8 (amended): a 404 response with the API's error body. -/
theorem c8_non200_notFound_witness :
    getDefinition (.response 404 (Json.obj [("title", Json.str "No Definitions Found")]))
      = .notFoundMessage ∧
    getDefinition .raised = .uncaughtException :=
  c8_non200_notFound 404 (Json.obj [("title", Json.str "No Definitions Found")]) (by decide)

/-! ## C9: translation failure handling -/

/-- C9: For every word and target language code, any exception raised by
the remote translation call yields the single generic translation-failure
message (the `except Exception` arm distinguishes nothing), and a
successful call shows exactly the translated text. -/
theorem c9_translate_spec (word dest : String)
    (remote : String → String → RemoteTranslation) :
    (remote word dest = .raised → translate word dest remote = .translationError) ∧
    (∀ t, remote word dest = .ok t → translate word dest remote = .success t) := by
  constructor
  · intro h
    simp [translate, h]
  · intro t h
    simp [translate, h]

/-- Witness for C9: a raising remote call and a constant remote call. -/
theorem c9_translate_spec_witness :
    translate "serendipity" "hi" remoteAlwaysRaises = .translationError ∧
    translate "serendipity" "hi" (remoteConst "sahajta") = .success "sahajta" :=
  ⟨(c9_translate_spec "serendipity" "hi" remoteAlwaysRaises).1 rfl,
   (c9_translate_spec "serendipity" "hi" (remoteConst "sahajta")).2 "sahajta" rfl⟩

/-! ## C10: the progress division is guarded -/

/-- C10: The progress fraction is computed only under the explicit
`total_pages > 0` guard (app.py line 107): when the guard fails — as with a
corrupted data file holding `total_pages = 0` — the block is skipped and no
division happens, and whenever the fraction is computed its divisor is
non-zero. -/
theorem c10_progress_guard (b : Book) :
    (b.total_pages ≤ 0 → progressPercentage b = none) ∧
    (0 < b.total_pages →
       progressPercentage b = some ((b.current_page : ℚ) / (b.total_pages : ℚ)) ∧
       (b.total_pages : ℚ) ≠ 0) := by
  constructor
  · intro h
    simp [progressPercentage]
    omega
  · intro h
    refine ⟨by simp [progressPercentage, h], ?_⟩
    exact_mod_cast (by omega : b.total_pages ≠ 0)

/-- Witness for C10: a zero-total book (as a corrupt file could store)
renders nothing; a normal book renders its exact fraction. -/
theorem c10_progress_guard_witness :
    progressPercentage { author := "Herbert", current_page := 3,
                         total_pages := 0, notes := [] } = none ∧
    progressPercentage { author := "Herbert", current_page := 55,
                         total_pages := 412, notes := [] } =
      some ((((55 : Int) : ℚ)) / (((412 : Int) : ℚ))) :=
  ⟨(c10_progress_guard _).1 (by decide),
   ((c10_progress_guard _).2 (by decide)).1⟩

end ReadingJournal
